import Mathlib

/-!
Shallow embedding of `src/extractor/extractor.py` (lagoproject/atmospheres).

Modeling conventions:
* Python float arithmetic is modeled exactly over `ℚ`; `np.exp` is passed as an
  abstract function parameter `ex : ℚ → ℚ`, since no property below depends on
  the analytic behaviour of the exponential.
* A raw GDAS parameter table (`np.loadtxt(fname=..., max_rows=4)`, line 239) is
  modeled as `ℕ → ℕ → ℚ`; only entries with row index 0..3 and column index
  0..4 are ever accessed, exactly as in the source.
* The file system and the external `gdastool` invocation are modeled by an
  oracle `TS → Option (ℕ → ℕ → ℚ)`: `none` means `os.path.isfile` is false for
  that timestamp's file, `some atm` means the file exists and loads as `atm`.
* Console output and the averaged-profile file write are modeled as an emitted
  `Event` trace.
-/

namespace Extractor

/-- Lines 87-93. `layer = 4; for i in range(1, 5): if an_h < an_atm[0][i]:
layer = i - 1; break`. The loop body is unrolled: the chain of `if`s is exactly
the first-match semantics of the `for`/`break`. Note the scanned columns of row
0 are 1, 2, 3, 4 (the loop starts at `i = 1`). -/
def get_layer (an_h : ℚ) (an_atm : ℕ → ℕ → ℚ) : ℕ :=
  if an_h < an_atm 0 1 then 0
  else if an_h < an_atm 0 2 then 1
  else if an_h < an_atm 0 3 then 2
  else if an_h < an_atm 0 4 then 3
  else 4

/-- Lines 96-102, with `np.exp` abstracted as `ex`. Python computes
`layer = get_layer(an_h, an_atm)` once; here the pure call is repeated, which
denotes the same value. -/
def depth (ex : ℚ → ℚ) (an_h : ℚ) (an_atm : ℕ → ℕ → ℚ) : ℚ :=
  if get_layer an_h an_atm = 4 then
    an_atm 1 (get_layer an_h an_atm) -
      an_atm 2 (get_layer an_h an_atm) * an_h / an_atm 3 (get_layer an_h an_atm)
  else
    an_atm 1 (get_layer an_h an_atm) +
      an_atm 2 (get_layer an_h an_atm) * ex (-an_h / an_atm 3 (get_layer an_h an_atm))

/-- Lines 105-111, with `np.exp` abstracted as `ex`. -/
def density (ex : ℚ → ℚ) (an_h : ℚ) (an_atm : ℕ → ℕ → ℚ) : ℚ :=
  if get_layer an_h an_atm = 4 then
    (an_atm 2 (get_layer an_h an_atm) / an_atm 3 (get_layer an_h an_atm)) *
      (an_atm 0 (get_layer an_h an_atm) / an_h)
  else
    an_atm 2 (get_layer an_h an_atm) * ex (-an_h / an_atm 3 (get_layer an_h an_atm)) /
      an_atm 3 (get_layer an_h an_atm)

/-- Lines 114-116: placeholder constant `3.e-3`. -/
def n_index : ℚ := 3 / 1000

/-- Modelled from the spec: the layer-selection rule exactly as the
specification words it — the smallest `i ∈ {0,1,2,3}` such that
`altitude < table.row0[i]`, and 4 when no such index exists. Kept only for
comparison with `get_layer`, the rule the source implements. -/
def select_layer_spec (an_h : ℚ) (an_atm : ℕ → ℕ → ℚ) : ℕ :=
  if an_h < an_atm 0 0 then 0
  else if an_h < an_atm 0 1 then 1
  else if an_h < an_atm 0 2 then 2
  else if an_h < an_atm 0 3 then 3
  else 4

/-- Gregorian leap-year rule, as implemented by Python's `calendar.isleap`. -/
def isLeap (y : ℕ) : Bool :=
  y % 4 == 0 && (y % 100 != 0 || y % 400 == 0)

/-- Number of days in a month: `calendar.monthrange(y, m)[1]` (lines 75, 244). -/
def daysInMonth (y m : ℕ) : ℕ :=
  if m = 2 then (if isLeap y then 29 else 28)
  else if m = 4 ∨ m = 6 ∨ m = 9 ∨ m = 11 then 30
  else 31

/-- Line 122: `gdas_local_hour = [00, 12]`. -/
def gdas_local_hour : List ℕ := [0, 12]

/-- One (local) timestamp of the enumeration: year, month, 1-based day, hour. -/
structure TS where
  year : ℕ
  month : ℕ
  day : ℕ
  hour : ℕ
deriving DecidableEq

/-- The timestamps of one month, in the order the nested loops of lines 214-215
produce them: days 1..monthrange, and for each day the hours of
`gdas_local_hour`. -/
def monthTS (y m : ℕ) : List TS :=
  (List.range (daysInMonth y m)).flatMap fun d =>
    gdas_local_hour.map fun hr => TS.mk y m (d + 1) hr

/-- The timestamps of one year: `days_in_year` (lines 73-76) crossed with the
two local hours. -/
def yearTS (y : ℕ) : List TS :=
  (List.range 12).flatMap fun m => monthTS y (m + 1)

/-- Line 128: the CORSIKA altitude grid in km,
`np.concatenate((np.arange(0, 25, 1), np.arange(25, 50, 2.5), np.arange(50, 125, 5)))`,
50 entries, indexed 0..49. -/
def h : ℕ → ℚ :=
  fun i =>
    if i < 25 then (i : ℚ)
    else if i < 35 then 25 + ((i - 25 : ℕ) : ℚ) * 5 / 2
    else 50 + ((i - 35 : ℕ) : ℚ) * 5

/-- One evaluated per-timestamp profile: the three value vectors produced from
a raw table at the 50 grid altitudes (only indices 0..49 are relevant). -/
structure Profile where
  rho : ℕ → ℚ
  thick : ℕ → ℚ
  n : ℕ → ℚ

/-- Lines 240-242: evaluate `density`, `depth`, `n_index` at every grid
altitude, converted from km to cm (`hi * 1.0e5`). -/
def evalProfile (ex : ℚ → ℚ) (atm : ℕ → ℕ → ℚ) : Profile where
  rho := fun i => density ex (h i * 100000) atm
  thick := fun i => depth ex (h i * 100000) atm
  n := fun _ => n_index

/-- The accumulation state: running sums `rho`, `thick`, `n` (lines 129-131)
and the folded-file count `n_files` (line 133). -/
structure AccState where
  rho : ℕ → ℚ
  thick : ℕ → ℚ
  n : ℕ → ℚ
  n_files : ℕ

/-- The zero state: `np.zeros_like(h)` three times and `n_files = 0`
(lines 129-133, and the reset at lines 272-275). -/
def zeroAcc : AccState :=
  { rho := fun _ => 0, thick := fun _ => 0, n := fun _ => 0, n_files := 0 }

/-- Lines 240-243: `rho += ...`, `thick += ...`, `n += ...`, `n_files += 1`. -/
def foldProfile (s : AccState) (p : Profile) : AccState where
  rho := fun i => s.rho i + p.rho i
  thick := fun i => s.thick i + p.thick i
  n := fun i => s.n i + p.n i
  n_files := s.n_files + 1

/-- Line 255: `avg_atm[avg_atm < 0] = 1e-5`, applied entrywise. -/
def clampNeg (x : ℚ) : ℚ :=
  if x < 0 then 1 / 100000 else x

/-- The averaged output table `avg_atm` (lines 251-256): columns a, r, t, n of
the emitted `atmprof` dataset. -/
structure AvgAtm where
  a : ℕ → ℚ
  r : ℕ → ℚ
  t : ℕ → ℚ
  n : ℕ → ℚ

/-- Lines 247-256: divide the running sums by `n_files`, clamp every negative
entry of the data frame to `1e-5` (this also touches the altitude column `a`,
where it is a no-op since grid altitudes are nonnegative), then force
`avg_atm.at[49, 't'] = 0`. -/
def flushState (s : AccState) : AvgAtm where
  a := fun i => clampNeg (h i)
  r := fun i => clampNeg (s.rho i / (s.n_files : ℚ))
  t := fun i => if i = 49 then 0 else clampNeg (s.thick i / (s.n_files : ℚ))
  n := fun i => clampNeg (s.n i / (s.n_files : ℚ))

/-- Observable outcomes of one averaging step: a written averaged profile
(line 269-271), the dead-branch warning of line 277, or the missing-file
diagnostic of line 279. -/
inductive Event where
  | flush (y m : ℕ) (out : AvgAtm)
  | warnNoFiles (y m : ℕ)
  | noFile (ts : TS)

/-- True exactly on averaged-profile outputs. -/
def isFlush : Event → Bool
  | Event.flush _ _ _ => true
  | _ => false

/-- True exactly on the "no files for month" warning of line 277. -/
def isWarn : Event → Bool
  | Event.warnNoFiles _ _ => true
  | _ => false

/-- One iteration of the `if average:` block, lines 237-279, for one timestamp
`ts`, with the file system as oracle `f`. If the file exists, its evaluated
profile is folded in and then, if `ts` is the month's last day at the last
local hour (line 244), the month is finalized: with `n_files > 0` the averaged
profile is emitted and the state reset to zero (lines 245-275), otherwise the
warning of line 277 is emitted with no reset. A missing file only yields the
line-279 diagnostic. -/
def stepTS (ex : ℚ → ℚ) (f : TS → Option (ℕ → ℕ → ℚ)) (s : AccState) (ts : TS) :
    AccState × List Event :=
  match f ts with
  | some atm =>
      if ts.day = daysInMonth ts.year ts.month ∧ ts.hour = gdas_local_hour.getLastD 0 then
        if 0 < (foldProfile s (evalProfile ex atm)).n_files then
          (zeroAcc,
            [Event.flush ts.year ts.month (flushState (foldProfile s (evalProfile ex atm)))])
        else
          (foldProfile s (evalProfile ex atm), [Event.warnNoFiles ts.year ts.month])
      else
        (foldProfile s (evalProfile ex atm), [])
  | none => (s, [Event.noFile ts])

/-- Sequential execution of the averaging block over a list of timestamps,
threading the accumulator state and concatenating the emitted events in
order. -/
def runTS (ex : ℚ → ℚ) (f : TS → Option (ℕ → ℕ → ℚ)) (s : AccState) :
    List TS → AccState × List Event
  | [] => (s, [])
  | ts :: rest =>
      ((runTS ex f (stepTS ex f s ts).1 rest).1,
        (stepTS ex f s ts).2 ++ (runTS ex f (stepTS ex f s ts).1 rest).2)

/-- A Python value that is either an `int` or a `str`: the type of the
`end_year` variable, which line 176 assigns a string and line 181 an int. -/
inductive PyVal where
  | int (n : ℤ)
  | str (s : String)
deriving DecidableEq

/-- The option state relevant to the year range: lines 139-141. -/
structure Config where
  start_year : ℤ
  end_year : PyVal
  default_last : Bool
deriving DecidableEq

/-- Lines 139-141: `start_year = 2018; end_year = start_year;
default_last = True`. -/
def initConfig : Config :=
  { start_year := 2018, end_year := PyVal.int 2018, default_last := true }

/-- Lines 172-178: the two option handlers that touch the year range. Note the
asymmetry copied from the source: `-y` applies `int(arg)`, while `-d` stores
the argument string unconverted. -/
def applyOpt (c : Config) (oa : String × String) : Config :=
  if oa.1 = "-y" ∨ oa.1 = "--year" then
    { c with start_year := (oa.2.toInt?).getD 0 }
  else if oa.1 = "-d" ∨ oa.1 = "--end" then
    { c with end_year := PyVal.str oa.2, default_last := false }
  else c

/-- The option loop (lines 149-178) followed by the `if default_last:`
fix-up of lines 180-182. -/
def parseOpts (opts : List (String × String)) : Config :=
  let c := opts.foldl applyOpt initConfig
  if c.default_last then { c with end_year := PyVal.int c.start_year } else c

/-- Line 213: `range(start_year, end_year + 1)`. When `end_year` is still a
string, the expression `end_year + 1` raises `TypeError` in Python; that is
modeled as `Except.error`. -/
def yearRange (c : Config) : Except String (List ℤ) :=
  match c.end_year with
  | PyVal.int e =>
      Except.ok ((List.range (e + 1 - c.start_year).toNat).map fun k => c.start_year + k)
  | PyVal.str _ => Except.error "TypeError"

/-- A concrete raw table: row 0 is the nondecreasing boundary row
(0, 10, 20, 30, 40), rows 1-3 are all 1. -/
def atmA : ℕ → ℕ → ℚ :=
  fun r c =>
    if r = 0 then
      (if c = 0 then 0 else if c = 1 then 10 else if c = 2 then 20
       else if c = 3 then 30 else 40)
    else 1

/-- A concrete raw table whose row-0 entries are all strictly positive. -/
def atmPos : ℕ → ℕ → ℚ := fun _ _ => 1

/-- A concrete accumulator state with two folded files. -/
def sW : AccState :=
  { rho := fun _ => -2, thick := fun _ => 4, n := fun _ => 6, n_files := 2 }

/-- A concrete raw table with every entry 1. -/
def tblOne : ℕ → ℕ → ℚ := fun _ _ => 1

/-- File-system oracle: every timestamp's raw file exists and holds
`tblOne`. -/
def oracleAll : TS → Option (ℕ → ℕ → ℚ) := fun _ => some tblOne

/-- File-system oracle: every raw file exists except the one of the last
timestamp of January 2018 (day 31, local hour 12). -/
def oracleMissLast : TS → Option (ℕ → ℕ → ℚ) :=
  fun ts => if ts = TS.mk 2018 1 31 12 then none else some tblOne

/-- Helper: `get_layer` returns 0 exactly when the altitude is below the
row-0 entry in column 1. -/
theorem get_layer_eq_zero_iff (an_h : ℚ) (an_atm : ℕ → ℕ → ℚ) :
    get_layer an_h an_atm = 0 ↔ an_h < an_atm 0 1 := by
  unfold get_layer
  split_ifs with h1 h2 h3 h4
  · exact iff_of_true rfl h1
  · exact iff_of_false (by decide) h1
  · exact iff_of_false (by decide) h1
  · exact iff_of_false (by decide) h1
  · exact iff_of_false (by decide) h1

/-- Helper: characterization of the value 1 of `get_layer`. -/
theorem get_layer_eq_one_iff (an_h : ℚ) (an_atm : ℕ → ℕ → ℚ) :
    get_layer an_h an_atm = 1 ↔ an_atm 0 1 ≤ an_h ∧ an_h < an_atm 0 2 := by
  unfold get_layer
  split_ifs with h1 h2 h3 h4
  · exact iff_of_false (by decide) fun hc => h1.not_le hc.1
  · exact iff_of_true rfl ⟨not_lt.mp h1, h2⟩
  · exact iff_of_false (by decide) fun hc => h2 hc.2
  · exact iff_of_false (by decide) fun hc => h2 hc.2
  · exact iff_of_false (by decide) fun hc => h2 hc.2

/-- Helper: characterization of the value 2 of `get_layer`. -/
theorem get_layer_eq_two_iff (an_h : ℚ) (an_atm : ℕ → ℕ → ℚ) :
    get_layer an_h an_atm = 2 ↔
      an_atm 0 1 ≤ an_h ∧ an_atm 0 2 ≤ an_h ∧ an_h < an_atm 0 3 := by
  unfold get_layer
  split_ifs with h1 h2 h3 h4
  · exact iff_of_false (by decide) fun hc => h1.not_le hc.1
  · exact iff_of_false (by decide) fun hc => h2.not_le hc.2.1
  · exact iff_of_true rfl ⟨not_lt.mp h1, not_lt.mp h2, h3⟩
  · exact iff_of_false (by decide) fun hc => h3 hc.2.2
  · exact iff_of_false (by decide) fun hc => h3 hc.2.2

/-- Helper: characterization of the value 3 of `get_layer`. -/
theorem get_layer_eq_three_iff (an_h : ℚ) (an_atm : ℕ → ℕ → ℚ) :
    get_layer an_h an_atm = 3 ↔
      an_atm 0 1 ≤ an_h ∧ an_atm 0 2 ≤ an_h ∧ an_atm 0 3 ≤ an_h ∧ an_h < an_atm 0 4 := by
  unfold get_layer
  split_ifs with h1 h2 h3 h4
  · exact iff_of_false (by decide) fun hc => h1.not_le hc.1
  · exact iff_of_false (by decide) fun hc => h2.not_le hc.2.1
  · exact iff_of_false (by decide) fun hc => h3.not_le hc.2.2.1
  · exact iff_of_true rfl ⟨not_lt.mp h1, not_lt.mp h2, not_lt.mp h3, h4⟩
  · exact iff_of_false (by decide) fun hc => h4 hc.2.2.2

/-- Helper: characterization of the value 4 of `get_layer`. -/
theorem get_layer_eq_four_iff (an_h : ℚ) (an_atm : ℕ → ℕ → ℚ) :
    get_layer an_h an_atm = 4 ↔
      an_atm 0 1 ≤ an_h ∧ an_atm 0 2 ≤ an_h ∧ an_atm 0 3 ≤ an_h ∧ an_atm 0 4 ≤ an_h := by
  unfold get_layer
  split_ifs with h1 h2 h3 h4
  · exact iff_of_false (by decide) fun hc => h1.not_le hc.1
  · exact iff_of_false (by decide) fun hc => h2.not_le hc.2.1
  · exact iff_of_false (by decide) fun hc => h3.not_le hc.2.2.1
  · exact iff_of_false (by decide) fun hc => h4.not_le hc.2.2.2
  · exact iff_of_true rfl ⟨not_lt.mp h1, not_lt.mp h2, not_lt.mp h3, not_lt.mp h4⟩

/-- Helper: the non-top branch of `depth`. -/
theorem depth_eq_of_ne4 (ex : ℚ → ℚ) (an_h : ℚ) (an_atm : ℕ → ℕ → ℚ)
    (hl : get_layer an_h an_atm ≠ 4) :
    depth ex an_h an_atm =
      an_atm 1 (get_layer an_h an_atm) +
        an_atm 2 (get_layer an_h an_atm) * ex (-an_h / an_atm 3 (get_layer an_h an_atm)) := by
  unfold depth
  rw [if_neg hl]

/-- Helper: the top-layer branch of `depth`. -/
theorem depth_eq_of_eq4 (ex : ℚ → ℚ) (an_h : ℚ) (an_atm : ℕ → ℕ → ℚ)
    (hl : get_layer an_h an_atm = 4) :
    depth ex an_h an_atm = an_atm 1 4 - an_atm 2 4 * an_h / an_atm 3 4 := by
  unfold depth
  rw [if_pos hl, hl]

/-- Helper: the non-top branch of `density`. -/
theorem density_eq_of_ne4 (ex : ℚ → ℚ) (an_h : ℚ) (an_atm : ℕ → ℕ → ℚ)
    (hl : get_layer an_h an_atm ≠ 4) :
    density ex an_h an_atm =
      an_atm 2 (get_layer an_h an_atm) * ex (-an_h / an_atm 3 (get_layer an_h an_atm)) /
        an_atm 3 (get_layer an_h an_atm) := by
  unfold density
  rw [if_neg hl]

/-- Helper: the top-layer branch of `density`. -/
theorem density_eq_of_eq4 (ex : ℚ → ℚ) (an_h : ℚ) (an_atm : ℕ → ℕ → ℚ)
    (hl : get_layer an_h an_atm = 4) :
    density ex an_h an_atm = (an_atm 2 4 / an_atm 3 4) * (an_atm 0 4 / an_h) := by
  unfold density
  rw [if_pos hl, hl]

/-- Helper: one averaging step never emits the "no files for month" warning:
the warning branch (line 277) requires `n_files = 0` right after line 243
incremented it, which is impossible. -/
theorem countP_isWarn_stepTS (ex : ℚ → ℚ) (f : TS → Option (ℕ → ℕ → ℚ))
    (s : AccState) (ts : TS) : ((stepTS ex f s ts).2).countP isWarn = 0 := by
  cases hft : f ts with
  | none => simp [stepTS, hft, isWarn]
  | some atm =>
      have hpos : 0 < (foldProfile s (evalProfile ex atm)).n_files :=
        Nat.succ_pos s.n_files
      by_cases hend : ts.day = daysInMonth ts.year ts.month ∧
          ts.hour = gdas_local_hour.getLastD 0
      · simp only [stepTS, hft]
        rw [if_pos hend, if_pos hpos]
        rfl
      · simp only [stepTS, hft]
        rw [if_neg hend]
        rfl

/-- Helper: running the averaging block over `l1 ++ l2` runs it over `l1`, then
over `l2` starting from the state left by `l1`, concatenating the events. -/
theorem runTS_append (ex : ℚ → ℚ) (f : TS → Option (ℕ → ℕ → ℚ))
    (l1 l2 : List TS) : ∀ s : AccState,
    runTS ex f s (l1 ++ l2) =
      ((runTS ex f (runTS ex f s l1).1 l2).1,
        (runTS ex f s l1).2 ++ (runTS ex f (runTS ex f s l1).1 l2).2) := by
  induction l1 with
  | nil => intro s; rfl
  | cons ts rest ih =>
      intro s
      have h2 := ih (stepTS ex f s ts).1
      show ((runTS ex f (stepTS ex f s ts).1 (rest ++ l2)).1,
            (stepTS ex f s ts).2 ++ (runTS ex f (stepTS ex f s ts).1 (rest ++ l2)).2) =
          ((runTS ex f (runTS ex f (stepTS ex f s ts).1 rest).1 l2).1,
            ((stepTS ex f s ts).2 ++ (runTS ex f (stepTS ex f s ts).1 rest).2) ++
              (runTS ex f (runTS ex f (stepTS ex f s ts).1 rest).1 l2).2)
      rw [h2, List.append_assoc]

/-- C1 counterexample: on the nondecreasing boundary row (0, 10, 20, 30, 40) of
`atmA` and altitude 15, the rule stated by the claim (smallest
`i ∈ {0,1,2,3}` with `altitude < row0[i]`, here `select_layer_spec`) yields 2,
but the source's `get_layer` yields 1: the claim is false for this table and
altitude. -/
theorem layer_selection_claim_counterexample :
    (∀ j, j < 4 → atmA 0 j ≤ atmA 0 (j + 1)) ∧
      select_layer_spec 15 atmA = 2 ∧ get_layer 15 atmA = 1 := by
  decide

/-- C1 (amended): `get_layer` scans the row-0 boundaries stored in columns
1..4, not 0..3: it returns the smallest `i ∈ {0,1,2,3}` with
`altitude < row0[i+1]` — equivalently the characterization below — and 4
exactly when the altitude is at or above all of `row0[1..4]`. -/
theorem get_layer_shifted_characterization (an_h : ℚ) (an_atm : ℕ → ℕ → ℚ) :
    (get_layer an_h an_atm = 0 ↔ an_h < an_atm 0 1) ∧
    (get_layer an_h an_atm = 1 ↔ an_atm 0 1 ≤ an_h ∧ an_h < an_atm 0 2) ∧
    (get_layer an_h an_atm = 2 ↔
      an_atm 0 1 ≤ an_h ∧ an_atm 0 2 ≤ an_h ∧ an_h < an_atm 0 3) ∧
    (get_layer an_h an_atm = 3 ↔
      an_atm 0 1 ≤ an_h ∧ an_atm 0 2 ≤ an_h ∧ an_atm 0 3 ≤ an_h ∧ an_h < an_atm 0 4) ∧
    (get_layer an_h an_atm = 4 ↔
      an_atm 0 1 ≤ an_h ∧ an_atm 0 2 ≤ an_h ∧ an_atm 0 3 ≤ an_h ∧ an_atm 0 4 ≤ an_h) :=
  ⟨get_layer_eq_zero_iff an_h an_atm, get_layer_eq_one_iff an_h an_atm,
    get_layer_eq_two_iff an_h an_atm, get_layer_eq_three_iff an_h an_atm,
    get_layer_eq_four_iff an_h an_atm⟩

/-- C4: whenever the selected layer is in {0,1,2,3}, `depth` returns
`row1[layer] + row2[layer] * exp(-altitude / row3[layer])`; when the selected
layer is 4 it returns `row1[4] - row2[4] * altitude / row3[4]`. -/
theorem depth_layer_formulas (ex : ℚ → ℚ) (an_h : ℚ) (an_atm : ℕ → ℕ → ℚ) :
    (get_layer an_h an_atm < 4 →
      depth ex an_h an_atm =
        an_atm 1 (get_layer an_h an_atm) +
          an_atm 2 (get_layer an_h an_atm) *
            ex (-an_h / an_atm 3 (get_layer an_h an_atm))) ∧
    (get_layer an_h an_atm = 4 →
      depth ex an_h an_atm = an_atm 1 4 - an_atm 2 4 * an_h / an_atm 3 4) :=
  ⟨fun hl => depth_eq_of_ne4 ex an_h an_atm (by omega),
    fun hl => depth_eq_of_eq4 ex an_h an_atm hl⟩

/-- C4 witness: both branches of `depth_layer_formulas` evaluated on the
concrete table `atmA`, at altitude 5 (layer 0) and altitude 100 (layer 4). -/
theorem depth_layer_formulas_witness :
    (depth id 5 atmA =
      atmA 1 (get_layer 5 atmA) +
        atmA 2 (get_layer 5 atmA) * id (-5 / atmA 3 (get_layer 5 atmA))) ∧
    (depth id 100 atmA = atmA 1 4 - atmA 2 4 * 100 / atmA 3 4) :=
  ⟨(depth_layer_formulas id 5 atmA).1 (by decide),
    (depth_layer_formulas id 100 atmA).2 (by decide)⟩

/-- C5: whenever the selected layer is in {0,1,2,3}, `density` returns
`row2[layer] * exp(-altitude / row3[layer]) / row3[layer]`; when the selected
layer is 4 it returns `(row2[4] / row3[4]) * (row0[4] / altitude)`. -/
theorem density_layer_formulas (ex : ℚ → ℚ) (an_h : ℚ) (an_atm : ℕ → ℕ → ℚ) :
    (get_layer an_h an_atm < 4 →
      density ex an_h an_atm =
        an_atm 2 (get_layer an_h an_atm) *
            ex (-an_h / an_atm 3 (get_layer an_h an_atm)) /
          an_atm 3 (get_layer an_h an_atm)) ∧
    (get_layer an_h an_atm = 4 →
      density ex an_h an_atm = (an_atm 2 4 / an_atm 3 4) * (an_atm 0 4 / an_h)) :=
  ⟨fun hl => density_eq_of_ne4 ex an_h an_atm (by omega),
    fun hl => density_eq_of_eq4 ex an_h an_atm hl⟩

/-- C5 witness: both branches of `density_layer_formulas` evaluated on the
concrete table `atmA`, at altitude 5 (layer 0) and altitude 100 (layer 4). -/
theorem density_layer_formulas_witness :
    (density id 5 atmA =
      atmA 2 (get_layer 5 atmA) * id (-5 / atmA 3 (get_layer 5 atmA)) /
        atmA 3 (get_layer 5 atmA)) ∧
    (density id 100 atmA = (atmA 2 4 / atmA 3 4) * (atmA 0 4 / 100)) :=
  ⟨(density_layer_formulas id 5 atmA).1 (by decide),
    (density_layer_formulas id 100 atmA).2 (by decide)⟩

/-- C6: for a table whose row-0 boundary entries are all strictly positive,
evaluating at altitude 0 selects layer 0, never layer 4, so the top-layer
division of `density` by the altitude is structurally unreachable at altitude
0, and `density` takes the exponential branch there. -/
theorem density_zero_altitude_avoids_layer4 (ex : ℚ → ℚ) (an_atm : ℕ → ℕ → ℚ)
    (hpos : ∀ j, j ≤ 4 → 0 < an_atm 0 j) :
    get_layer 0 an_atm ≠ 4 ∧
      density ex 0 an_atm = an_atm 2 0 * ex (-0 / an_atm 3 0) / an_atm 3 0 := by
  have h0 : get_layer (0 : ℚ) an_atm = 0 :=
    (get_layer_eq_zero_iff 0 an_atm).mpr (hpos 1 (by omega))
  have hne : get_layer (0 : ℚ) an_atm ≠ 4 := by rw [h0]; decide
  refine ⟨hne, ?_⟩
  rw [density_eq_of_ne4 ex 0 an_atm hne, h0]

/-- C6 witness: `density_zero_altitude_avoids_layer4` evaluated on the
concrete all-positive table `atmPos`. -/
theorem density_zero_altitude_avoids_layer4_witness :
    get_layer 0 atmPos ≠ 4 ∧
      density id 0 atmPos = atmPos 2 0 * id (-0 / atmPos 3 0) / atmPos 3 0 :=
  density_zero_altitude_avoids_layer4 id atmPos (by decide)

set_option maxRecDepth 8000 in
/-- C2: with every January 2018 raw file present except the month's last
timestamp (day 31, hour 12), the month-end block — nested inside the
file-exists check — never runs: after the whole month the accumulator still
counts the 61 folded profiles (so no reset to zero happened, and the 61 folded
sums are still in the running totals), and no averaged profile was emitted.
By `runTS_append`, this non-zero state is exactly the state in which February
starts, so the accumulation is carried into the next month. -/
theorem stale_sums_carried_across_month_boundary :
    (runTS id oracleMissLast zeroAcc (monthTS 2018 1)).1.n_files = 61 ∧
    ((runTS id oracleMissLast zeroAcc (monthTS 2018 1)).2.countP isFlush = 0) := by
  decide

/-- C3: the "no files for month" warning of line 277 is never emitted on any
run, for any file-system oracle and any starting state: the branch is dead,
because reaching the month-end check requires the current file to exist, and
line 243 has then just incremented `n_files`, so the guard `n_files > 0` of
line 245 always holds there. A month with zero folded timestamps therefore
gets no warning (its last file is missing, so the month-end block is skipped
altogether). -/
theorem no_files_warning_never_emitted (ex : ℚ → ℚ) (f : TS → Option (ℕ → ℕ → ℚ))
    (l : List TS) : ∀ s : AccState, ((runTS ex f s l).2).countP isWarn = 0 := by
  induction l with
  | nil => intro s; rfl
  | cons ts rest ih =>
      intro s
      show (((stepTS ex f s ts).2) ++
          (runTS ex f (stepTS ex f s ts).1 rest).2).countP isWarn = 0
      rw [List.countP_append, countP_isWarn_stepTS, ih]

/-- C7: at a flush with positive count, each output entry is the corresponding
running sum divided by `n_files`, with any negative result replaced by `1e-5`,
and the depth entry at grid index 49 (the 50th altitude) forced to exactly 0
regardless of its computed mean. -/
theorem flush_divides_clamps_and_floors (s : AccState) (hn : 0 < s.n_files) :
    (∀ i, (flushState s).r i =
      if s.rho i / (s.n_files : ℚ) < 0 then 1 / 100000
      else s.rho i / (s.n_files : ℚ)) ∧
    (∀ i, (flushState s).t i =
      if i = 49 then 0
      else if s.thick i / (s.n_files : ℚ) < 0 then 1 / 100000
      else s.thick i / (s.n_files : ℚ)) ∧
    (flushState s).t 49 = 0 ∧
    (∀ i, (flushState s).n i =
      if s.n i / (s.n_files : ℚ) < 0 then 1 / 100000
      else s.n i / (s.n_files : ℚ)) :=
  ⟨fun _ => rfl, fun _ => rfl, rfl, fun _ => rfl⟩

/-- C7 witness: `flush_divides_clamps_and_floors` evaluated on the concrete
state `sW` (count 2, negative density sums). -/
theorem flush_divides_clamps_and_floors_witness :
    (flushState sW).r 0 =
      (if sW.rho 0 / (sW.n_files : ℚ) < 0 then 1 / 100000
       else sW.rho 0 / (sW.n_files : ℚ)) ∧
    (flushState sW).t 49 = 0 :=
  ⟨(flush_divides_clamps_and_floors sW (by decide)).1 0,
    (flush_divides_clamps_and_floors sW (by decide)).2.2.1⟩

set_option maxRecDepth 8000 in
/-- C8: with every raw file present, exactly one averaged profile is emitted
per month — including February of the non-leap year 2019 (28 days) and of the
leap year 2020 (29 days) — but when the raw file of the month's final
timestamp (last day, second local hour) is missing, the month produces no
flush at all: zero instead of the claimed exactly one. -/
theorem flush_only_when_last_file_present :
    ((runTS id oracleAll zeroAcc (monthTS 2018 1)).2.countP isFlush = 1) ∧
    ((runTS id oracleAll zeroAcc (monthTS 2019 2)).2.countP isFlush = 1) ∧
    ((runTS id oracleAll zeroAcc (monthTS 2020 2)).2.countP isFlush = 1) ∧
    ((runTS id oracleMissLast zeroAcc (monthTS 2018 1)).2.countP isFlush = 0) :=
  ⟨by decide, by decide, by decide, by decide⟩

/-- C9: supplying the end-year option leaves `end_year` a string (line 176
stores the argument without `int()`), so building `range(start_year,
end_year + 1)` at line 213 raises `TypeError` — no year is ever enumerated —
for every argument string; without the option the enumerated range is exactly
the start year 2018. -/
theorem end_year_option_raises_type_error :
    (∀ arg : String, yearRange (parseOpts [("-d", arg)]) = Except.error "TypeError") ∧
    yearRange (parseOpts []) = Except.ok [2018] :=
  ⟨fun _ => rfl, rfl⟩

/-- C10: flushing a month into which exactly one profile was folded returns
that profile itself, up to the negative-entry clamp to `1e-5` and the forced
zero depth at grid index 49: the sums are the profile's values and the
division is by 1. -/
theorem single_timestamp_roundtrip (p : Profile) :
    (∀ i, (flushState (foldProfile zeroAcc p)).r i = clampNeg (p.rho i)) ∧
    (∀ i, (flushState (foldProfile zeroAcc p)).t i =
      if i = 49 then 0 else clampNeg (p.thick i)) ∧
    (∀ i, (flushState (foldProfile zeroAcc p)).n i = clampNeg (p.n i)) := by
  refine ⟨fun i => ?_, fun i => ?_, fun i => ?_⟩ <;>
    simp [flushState, foldProfile, zeroAcc]

end Extractor
